import Mathlib

/-!
Verification of the PriceWatch resilient scraping and scheduling engine.

This file is a shallow embedding of the core of the repository:
- `Backend/app/services/scraper_advanced.py` (`CircuitBreaker`, `ScraperCache`),
- `Backend/app/services/scraper.py` (`PriceScraper.scrape_product` and the
  per-site price extraction / parsing),
- `Backend/app/services/price_history.py` (`should_record_price`),
- `Backend/app/services/admin.py` (`log_scraping_stat`),
- `Backend/tasks.py` (`calculate_priority`, `check_prices_by_frequency`
  result processing).

Prices (Python floats holding decimal money values) are modelled as rationals,
wall-clock timestamps (`datetime.utcnow()`) as natural numbers counting
seconds, and Redis as an explicit store record / association list.
-/

namespace PriceWatch

/-! ## Circuit breaker (`scraper_advanced.py`, class `CircuitBreaker`)

Redis keys `circuit_breaker:{site}:state|failures|successes|last_failure`
are modelled as one record per site.  A missing `state` key is `none`
(`get_state` then returns CLOSED); the counters model Redis `INCR`
semantics, where a deleted/missing key counts as 0. -/

inductive CBState where
  | closed
  | opened
  | halfOpen
deriving DecidableEq, Repr

structure CircuitStore where
  state : Option CBState
  failures : Nat
  successes : Nat
  lastFailure : Option Nat
deriving DecidableEq, Repr

/-- A fresh store: no Redis keys exist for the site yet. -/
def initialStore : CircuitStore := ⟨none, 0, 0, none⟩

/-- CircuitBreaker.get_state: missing state key reads as CLOSED. -/
def get_state (st : CircuitStore) : CBState := st.state.getD .closed

/-- CircuitBreaker.SITE_THRESHOLDS failure_threshold lookup
(amazon 10, cdiscount 8, default 5). -/
def siteFailureThreshold (site : String) : Nat :=
  if site = "amazon" then 10 else if site = "cdiscount" then 8 else 5

/-- CircuitBreaker.SITE_THRESHOLDS recovery_timeout lookup
(amazon 120, cdiscount 90, default 60). -/
def siteRecoveryTimeout (site : String) : Nat :=
  if site = "amazon" then 120 else if site = "cdiscount" then 90 else 60

/-- CircuitBreaker.record_failure: increments the failure counter and stamps
`last_failure`; a failure in HALF_OPEN reopens the circuit and deletes the
success counter; otherwise, reaching the site failure threshold opens it. -/
def record_failure (site : String) (now : Nat) (st : CircuitStore) : CircuitStore :=
  let state := get_state st
  let failures := st.failures + 1
  let st1 : CircuitStore := { st with failures := failures, lastFailure := some now }
  if state = .halfOpen then
    { st1 with state := some .opened, successes := 0 }
  else if failures ≥ siteFailureThreshold site then
    { st1 with state := some .opened }
  else st1

/-- CircuitBreaker.is_available: CLOSED allows the request; OPEN compares
`now` against `last_failure + recovery_timeout` and on expiry transitions to
HALF_OPEN (resetting the success counter) and allows the request, otherwise
blocks; HALF_OPEN allows requests.  Returns the answer and the
(possibly mutated) store. -/
def is_available (site : String) (now : Nat) (st : CircuitStore) : Bool × CircuitStore :=
  match get_state st with
  | .closed => (true, st)
  | .opened =>
    match st.lastFailure with
    | some lf =>
      if now ≥ lf + siteRecoveryTimeout site then
        (true, { st with state := some .halfOpen, successes := 0 })
      else (false, st)
    | none => (false, st)
  | .halfOpen => (true, st)

/-- CircuitBreaker.record_success: in HALF_OPEN increments the success
counter and, on reaching `success_threshold`, closes the circuit and deletes
all counters; in CLOSED resets the failure counter; in OPEN does nothing. -/
def record_success (successThreshold : Nat) (site : String) (st : CircuitStore) : CircuitStore :=
  match get_state st with
  | .halfOpen =>
    let s := st.successes + 1
    if s ≥ successThreshold then ⟨some .closed, 0, 0, none⟩
    else { st with successes := s }
  | .closed => { st with failures := 0 }
  | .opened => st

/-- Folding `record_failure` over a list of failure timestamps
(consecutive `record_failure` calls with no intervening success). -/
def recordFailures (site : String) (ts : List Nat) (st : CircuitStore) : CircuitStore :=
  ts.foldl (fun s t => record_failure site t s) st

/-- Iterating `record_success` n times (consecutive successes). -/
def recordSuccesses (successThreshold : Nat) (site : String) (n : Nat)
    (st : CircuitStore) : CircuitStore :=
  (record_success successThreshold site)^[n] st

/-! ## TTL cache (`scraper_advanced.py`, class `ScraperCache`)

The cached JSON payload is a Python dict, modelled as an association list of
string fields (the JSON round trip through `json.dumps`/`json.loads` is the
identity on it).  Redis `SETEX key ttl value` is modelled by recording the
absolute expiry time `now + ttl`; a `GET` at time `now` sees the key only
while `now < expiresAt`.  `_generate_cache_key` prefixes an MD5 hex digest of
the URL; the digest is modelled as the URL itself (an injective key
derivation, which is exactly what the hash is for). -/

structure CacheEntry where
  value : List (String × String)
  expiresAt : Nat
deriving DecidableEq, Repr

abbrev RedisKV := List (String × CacheEntry)

/-- ScraperCache._generate_cache_key (MD5 digest modelled as the URL). -/
def cacheKey (url : String) : String := "scraper_cache:" ++ url

/-- Redis SETEX: store the value under the key with absolute expiry. -/
def redisSetex (store : RedisKV) (key : String) (val : List (String × String))
    (ttl now : Nat) : RedisKV :=
  (key, ⟨val, now + ttl⟩) :: store

/-- Redis GET at time `now`: the first binding of the key, if not expired. -/
def redisGet (store : RedisKV) (key : String) (now : Nat) : Option (List (String × String)) :=
  match store.find? (fun kv => kv.1 = key) with
  | some kv => if now < kv.2.expiresAt then some kv.2.value else none
  | none => none

/-- Python `{**data, "cached_at": ts}`: replaces an existing `cached_at`
field in place, otherwise appends it. -/
def stampCachedAt (data : List (String × String)) (ts : String) : List (String × String) :=
  if data.any (fun kv => kv.1 = "cached_at") then
    data.map (fun kv => if kv.1 = "cached_at" then (kv.1, ts) else kv)
  else data ++ [("cached_at", ts)]

/-- Python `ttl = ttl or self.default_ttl` (`None` and `0` both fall back). -/
def effectiveTtl (ttl : Option Nat) (defaultTtl : Nat) : Nat :=
  match ttl with
  | none => defaultTtl
  | some t => if t = 0 then defaultTtl else t

/-- ScraperCache.set: stamps the payload with its write time and SETEXes it
under the URL key. -/
def cacheSet (store : RedisKV) (url : String) (data : List (String × String))
    (ttl : Option Nat) (defaultTtl now : Nat) : RedisKV :=
  redisSetex store (cacheKey url) (stampCachedAt data (toString now))
    (effectiveTtl ttl defaultTtl) now

/-- ScraperCache.get: GET under the URL key (the JSON round trip is the
identity in this model); a missing or expired key yields `none`. -/
def cacheGet (store : RedisKV) (url : String) (now : Nat) : Option (List (String × String)) :=
  redisGet store (cacheKey url) now

/-! ## Price history (`price_history.py`, class `PriceHistoryService`)

A product's price history is the list of recorded prices, most recent
first (`order_by(PriceHistory.recorded_at.desc())`). -/

/-- PriceHistoryService.should_record_price: record when no history exists
or the most recently recorded price differs from the new price. -/
def should_record_price (history : List ℚ) (newPrice : ℚ) : Bool :=
  match history with
  | [] => true
  | last :: _ => last ≠ newPrice

/-! ## Scraping statistics (`admin.py`, `AdminService.log_scraping_stat`) -/

structure ScrapingStat where
  siteName : String
  productId : Option Nat
  status : String
  responseTime : Option ℚ
  errorMessage : Option String
deriving DecidableEq, Repr

/-- AdminService.log_scraping_stat: adds and commits one ScrapingStats row. -/
def log_scraping_stat (db : List ScrapingStat) (siteName : String) (status : String)
    (productId : Option Nat) (responseTime : Option ℚ) (errorMessage : Option String) :
    List ScrapingStat :=
  db ++ [⟨siteName, productId, status, responseTime, errorMessage⟩]

/-! ## The retry loop (`scraper.py`, `PriceScraper.scrape_product`)

One attempt of the loop body is driven by the environment: what the HTTP
fetch returns and what the fetched page contains.  The possible outcomes of
one attempt, in the order the code inspects them: -/

structure ScrapedData where
  name : String
  price : ℚ
  image : Option String
deriving DecidableEq, Repr

inductive AttemptOutcome where
  /-- fetch ok, availability check negative, extractor returned data -/
  | success (data : ScrapedData)
  /-- fetch ok but `_is_product_unavailable` matched -/
  | unavailablePage
  /-- `requests.exceptions.Timeout` -/
  | timeout
  /-- `requests.exceptions.HTTPError` with this status (`raise_for_status`) -/
  | httpError (status : Nat)
  /-- extractor returned `None` (`Failed to extract data` recorded) -/
  | extractionFailed
  /-- any other exception -/
  | otherError
deriving DecidableEq, Repr

/-- The `last_exception` recorded by the loop for a non-terminal attempt. -/
inductive LastExc where
  | timeout
  | httpError (status : Nat)
  | extractionFailed
  | otherError
deriving DecidableEq, Repr

/-- How one loop exits: `ProductUnavailableError` raised, data returned, or
all attempts exhausted with the last recorded exception. -/
inductive LoopExit where
  | raisedUnavailable
  | returned (data : ScrapedData)
  | exhausted (last : Option LastExc)
deriving DecidableEq, Repr

/-- The attempt loop of scrape_product over the outcomes of successive
attempts, also counting the fetches (`session.get` calls) made.
`ProductUnavailableError` is raised on an unavailability match or on
HTTP 404/410 and stops the loop; timeouts, other HTTP errors, extraction
failures and other errors are recorded and the loop retries. -/
def scrapeLoop : List AttemptOutcome → Option LastExc → LoopExit × Nat
  | [], last => (.exhausted last, 0)
  | o :: rest, last =>
    match o with
    | .success d => (.returned d, 1)
    | .unavailablePage => (.raisedUnavailable, 1)
    | .timeout =>
      let r := scrapeLoop rest (some .timeout)
      (r.1, r.2 + 1)
    | .httpError s =>
      if s = 404 ∨ s = 410 then (.raisedUnavailable, 1)
      else
        let r := scrapeLoop rest (some (.httpError s))
        (r.1, r.2 + 1)
    | .extractionFailed =>
      let r := scrapeLoop rest (some .extractionFailed)
      (r.1, r.2 + 1)
    | .otherError =>
      let r := scrapeLoop rest (some .otherError)
      (r.1, r.2 + 1)

/-- The result scrape_product communicates to its caller: the raised
`ProductUnavailableError`, returned data, or a `None` return. -/
inductive ScrapeResult where
  | unavailable
  | success (data : ScrapedData)
  | failed
deriving DecidableEq, Repr

structure ScrapeRun where
  result : ScrapeResult
  fetchAttempts : Nat
  usedFallback : Bool
deriving DecidableEq, Repr

/-- Whether the terminal exception escalates to the Playwright fallback:
an HTTP 403 or a data-extraction failure. -/
def shouldTryPlaywright : LastExc → Bool
  | .httpError s => s = 403
  | .extractionFailed => true
  | _ => false

/-- PriceScraper.scrape_product: run up to `maxRetries` attempts; if all are
exhausted, optionally escalate once to the Playwright fallback (whose own
success is `playwrightResult = some data`; a `None` return and a raised
fallback error are both absorbed).  The only exception that propagates is
`ProductUnavailableError` (`ScrapeResult.unavailable`). -/
def scrape_product (maxRetries : Nat) (env : List AttemptOutcome)
    (playwrightResult : Option ScrapedData) : ScrapeRun :=
  let r := scrapeLoop (env.take maxRetries) none
  match r.1 with
  | .raisedUnavailable => ⟨.unavailable, r.2, false⟩
  | .returned d => ⟨.success d, r.2, false⟩
  | .exhausted last =>
    match last with
    | some e =>
      if shouldTryPlaywright e then
        match playwrightResult with
        | some d => ⟨.success d, r.2, true⟩
        | none => ⟨.failed, r.2, true⟩
      else ⟨.failed, r.2, false⟩
    | none => ⟨.failed, r.2, false⟩

/-! ## Scheduler result processing (`tasks.py`)

`Product` carries the fields the core reads and writes; timestamps are
seconds (`datetime.utcnow()` modelled as a `Nat`). -/

structure Product where
  currentPrice : ℚ
  targetPrice : ℚ
  isAvailable : Bool
  unavailableSince : Option Nat
  lastChecked : Nat
deriving DecidableEq, Repr

/-- tasks.calculate_priority: 0 at or below target, else the relative
distance above target. -/
def calculate_priority (p : Product) : ℚ :=
  if p.currentPrice ≤ p.targetPrice then 0
  else (p.currentPrice - p.targetPrice) / p.targetPrice

/-- Python's `sorted(products, key=calculate_priority)`: a stable sort,
non-decreasing in the key. -/
def sortByPriority (products : List Product) : List Product :=
  products.mergeSort (fun a b => calculate_priority a ≤ calculate_priority b)

/-- What scrape_single_product_safe hands to the result-processing loop of
check_prices_by_frequency: a scraped price, a `ProductUnavailableError`, or
any other error (including `No data returned from scraper`). -/
inductive TaskResult where
  | price (newPrice : ℚ)
  | unavailable
  | error
deriving DecidableEq, Repr

/-- tasks.scrape_single_product_safe, as a function of the outcome of
scrape_product for the product's URL. -/
def scrape_single_product_safe (r : ScrapeResult) : TaskResult :=
  match r with
  | .success d => .price d.price
  | .unavailable => .unavailable
  | .failed => .error

/-- The per-product result processing of `check_prices_by_frequency`
(tasks.py lines 257-314): on `ProductUnavailableError` an available product
is marked unavailable with `unavailable_since` and `last_checked` set; on a
scraped price the product is made available again if needed, price and
`last_checked` are updated, a history entry is appended only when
`should_record_price` says so, and a `(newPrice, oldPrice)` alert is
forwarded exactly when the price crossed from strictly above target to at
or below it; other errors only count.  The returned components are the
updated product, the price history (most recent first), the
`send_price_alert` calls made, and the ScrapingStats rows written (the task
never writes any). -/
def processResult (p : Product) (history : List ℚ) (r : TaskResult) (now : Nat) :
    Product × List ℚ × List (ℚ × ℚ) × List ScrapingStat :=
  match r with
  | .unavailable =>
    if p.isAvailable then
      ({ p with isAvailable := false, unavailableSince := some now, lastChecked := now },
        history, [], [])
    else (p, history, [], [])
  | .error => (p, history, [], [])
  | .price newPrice =>
    let oldPrice := p.currentPrice
    let p1 := if ! p.isAvailable then
        { p with isAvailable := true, unavailableSince := none } else p
    let p2 := { p1 with currentPrice := newPrice, lastChecked := now }
    let history1 := if should_record_price history newPrice then newPrice :: history
      else history
    let alerts := if newPrice ≤ p.targetPrice ∧ oldPrice > p.targetPrice then
        [(newPrice, oldPrice)] else []
    (p2, history1, alerts, [])

/-! ## Price-string parsing (`scraper.py`, `_scrape_fnac` / `_scrape_amazon`)

Python strings are modelled as `List Char`.  `str.replace(",", ".")` and
`str.replace(" ", "")` on single-character patterns are a character map and
a character filter; `re.sub(r"[^\d.]", "", s)` keeps only digits and dots;
`float(s)` on a digits-and-dots string is exact decimal parsing, failing
(a `ValueError`, caught by the extractor which then returns `None`) on an
empty string, a lone dot, or more than one dot. -/

/-- Python `s.replace(c, d)` for one-character `c`, `d`. -/
def pyReplaceChar (c d : Char) (s : List Char) : List Char :=
  s.map fun x => if x = c then d else x

/-- Python `s.replace(c, "")` for one-character `c`. -/
def pyRemoveChar (c : Char) (s : List Char) : List Char :=
  s.filter fun x => x ≠ c

/-- Python `s.strip()`. -/
def pyStrip (s : List Char) : List Char :=
  ((s.dropWhile Char.isWhitespace).reverse.dropWhile Char.isWhitespace).reverse

/-- Python `re.sub(r"[^\d.]", "", s)`. -/
def keepDigitsDot (s : List Char) : List Char :=
  s.filter fun x => x.isDigit ∨ x = '.'

/-- The numeric value of a list of decimal digits. -/
def digitsVal (s : List Char) : Nat :=
  s.foldl (fun n c => 10 * n + (c.toNat - 48)) 0

/-- Python `float(s)` on a string of digits and dots: an optional integer
part, an optional dot, an optional fractional part — at least one digit,
at most one dot. -/
def pyFloatOfDigitsDot (s : List Char) : Option ℚ :=
  match s.splitOn '.' with
  | [a] => if a = [] then none else some (digitsVal a)
  | [a, b] =>
    if a = [] ∧ b = [] then none
    else some ((digitsVal a : ℚ) + (digitsVal b : ℚ) / (10 : ℚ) ^ b.length)
  | _ => none

/-- The price normalisation of `_scrape_fnac` (and `_scrape_darty` etc.):
`text.strip().replace("€", "").replace(",", ".").replace(" ", "")` followed
by `float(re.sub(r"[^\d.]", "", price_str))`; a `ValueError` makes the
extractor return `None`. -/
def fnacParsePrice (s : List Char) : Option ℚ :=
  pyFloatOfDigitsDot (keepDigitsDot
    (pyRemoveChar ' ' (pyReplaceChar ',' '.' (pyRemoveChar '€' (pyStrip s)))))

/-- The price normalisation of `_scrape_amazon`:
`whole.strip().replace(",", ".").replace(" ", "") + fraction.strip()`
followed by `float(re.sub(r"[^\d.]", "", price_str))`. -/
def amazonParsePrice (whole frac : List Char) : Option ℚ :=
  pyFloatOfDigitsDot (keepDigitsDot
    (pyRemoveChar ' ' (pyReplaceChar ',' '.' (pyStrip whole)) ++ pyStrip frac))

/-- Attempt outcomes on which scrape_product raises `ProductUnavailableError`:
an unavailability match, or HTTP 404/410. -/
def raisesUnavailable : AttemptOutcome → Bool
  | .unavailablePage => true
  | .httpError s => s = 404 ∨ s = 410
  | _ => false

/-- Attempt outcomes that are absorbed and retried: timeouts, HTTP errors
other than 404/410, extraction failures, and any other exception. -/
def isRetriedFailure : AttemptOutcome → Bool
  | .success _ => false
  | .unavailablePage => false
  | .timeout => true
  | .httpError s => ¬(s = 404 ∨ s = 410)
  | .extractionFailed => true
  | .otherError => true

/-! # Theorems -/

/-! ## Circuit breaker lemmas -/

theorem record_failure_failures (site : String) (t : Nat) (st : CircuitStore) :
    (record_failure site t st).failures = st.failures + 1 := by
  simp only [record_failure]
  split
  · rfl
  · split <;> rfl

theorem record_failure_lastFailure (site : String) (t : Nat) (st : CircuitStore) :
    (record_failure site t st).lastFailure = some t := by
  simp only [record_failure]
  split
  · rfl
  · split <;> rfl

theorem get_state_record_failure (site : String) (t : Nat) (st : CircuitStore)
    (h : get_state st ≠ .halfOpen) :
    get_state (record_failure site t st) =
      if siteFailureThreshold site ≤ st.failures + 1 then .opened else get_state st := by
  simp only [record_failure, if_neg h]
  split
  · rfl
  · rfl

theorem get_state_record_failure_ne_halfOpen (site : String) (t : Nat) (st : CircuitStore)
    (h : get_state st ≠ .halfOpen) :
    get_state (record_failure site t st) ≠ .halfOpen := by
  rw [get_state_record_failure site t st h]
  split
  · simp
  · exact h

theorem recordFailures_opened (site : String) :
    ∀ (ts : List Nat) (st : CircuitStore), get_state st ≠ .halfOpen → ts ≠ [] →
      siteFailureThreshold site ≤ st.failures + ts.length →
      get_state (recordFailures site ts st) = .opened
  | [], _, _, hne, _ => absurd rfl hne
  | [t], st, hh, _, hth => by
    have hf : siteFailureThreshold site ≤ st.failures + 1 := by
      simpa using hth
    simp only [recordFailures, List.foldl_cons, List.foldl_nil]
    rw [get_state_record_failure site t st hh, if_pos hf]
  | t :: t2 :: ts, st, hh, _, hth => by
    have step : recordFailures site (t :: t2 :: ts) st
        = recordFailures site (t2 :: ts) (record_failure site t st) := rfl
    rw [step]
    refine recordFailures_opened site (t2 :: ts) (record_failure site t st)
      (get_state_record_failure_ne_halfOpen site t st hh) (by simp) ?_
    rw [record_failure_failures]
    have : st.failures + (t :: t2 :: ts).length
        = st.failures + 1 + (t2 :: ts).length := by
      simp; omega
    omega

theorem recordFailures_lastFailure (site : String) :
    ∀ (ts : List Nat) (st : CircuitStore) (h : ts ≠ []),
      (recordFailures site ts st).lastFailure = some (ts.getLast h)
  | [], _, h => absurd rfl h
  | [t], st, _ => by
    simp only [recordFailures, List.foldl_cons, List.foldl_nil]
    rw [record_failure_lastFailure]
    rfl
  | t :: t2 :: ts, st, _ => by
    have step : recordFailures site (t :: t2 :: ts) st
        = recordFailures site (t2 :: ts) (record_failure site t st) := rfl
    rw [step, recordFailures_lastFailure site (t2 :: ts) _ (by simp)]
    rfl

theorem is_available_open_blocked (site : String) (now lf : Nat) (st : CircuitStore)
    (h1 : get_state st = .opened) (h2 : st.lastFailure = some lf)
    (h3 : now < lf + siteRecoveryTimeout site) :
    is_available site now st = (false, st) := by
  simp only [is_available, h1, h2]
  rw [if_neg (by omega)]

/-- Claim C2: after `failureThreshold` consecutive `record_failure` calls for
a site, starting from a fresh store with no intervening success, the circuit
state is OPEN, and an `is_available` call at any time within
`recoveryTimeout` of the last failure returns `false` without mutating the
store (so every such call is blocked and no network fetch is attempted). -/
theorem C2_breaker_opens_and_blocks (site : String) (ts : List Nat) (now : Nat)
    (h1 : ts ≠ []) (h2 : ts.length = siteFailureThreshold site)
    (h3 : now < ts.getLast h1 + siteRecoveryTimeout site) :
    get_state (recordFailures site ts initialStore) = .opened ∧
    is_available site now (recordFailures site ts initialStore) =
      (false, recordFailures site ts initialStore) := by
  have hopen : get_state (recordFailures site ts initialStore) = .opened :=
    recordFailures_opened site ts initialStore (by simp [initialStore, get_state]) h1
      (by simp [initialStore, h2])
  refine ⟨hopen, ?_⟩
  exact is_available_open_blocked site now (ts.getLast h1) _ hopen
    (recordFailures_lastFailure site ts initialStore h1) h3

/-- Witness for C2 at site `"default"` (threshold 5, recovery timeout 60):
five consecutive failures at time 0, probed at time 59. -/
theorem C2_breaker_opens_and_blocks_witness :
    ([0, 0, 0, 0, 0] : List Nat) ≠ [] ∧
    ([0, 0, 0, 0, 0] : List Nat).length = siteFailureThreshold "default" ∧
    get_state (recordFailures "default" [0, 0, 0, 0, 0] initialStore) = .opened ∧
    is_available "default" 59 (recordFailures "default" [0, 0, 0, 0, 0] initialStore) =
      (false, recordFailures "default" [0, 0, 0, 0, 0] initialStore) := by
  refine ⟨by decide, by decide, ?_⟩
  exact C2_breaker_opens_and_blocks "default" [0, 0, 0, 0, 0] 59
    (by decide) (by decide) (by decide)

theorem recordSuccesses_closes (thr : Nat) (site : String) :
    ∀ (k : Nat) (st : CircuitStore), get_state st = .halfOpen →
      st.successes + k = thr → 1 ≤ k →
      recordSuccesses thr site k st = ⟨some .closed, 0, 0, none⟩
  | 0, _, _, _, h1 => absurd h1 (by omega)
  | 1, st, hh, hs, _ => by
    simp only [recordSuccesses, Function.iterate_one, record_success, hh]
    rw [if_pos (by omega)]
  | k + 2, st, hh, hs, _ => by
    have step : recordSuccesses thr site (k + 2) st
        = recordSuccesses thr site (k + 1) (record_success thr site st) := by
      simp only [recordSuccesses, Function.iterate_succ_apply]
    have hrec : record_success thr site st = { st with successes := st.successes + 1 } := by
      simp only [record_success, hh]
      rw [if_neg (by omega)]
    rw [step, hrec]
    exact recordSuccesses_closes thr site (k + 1) _ hh (by simp; omega) (by omega)

/-- Claim C3 (amended): once `recoveryTimeout` has elapsed since the last
failure of an OPEN circuit, `is_available` moves it to HALF_OPEN with a
cleared success counter and allows the call; `successThreshold` consecutive
`record_success` calls in HALF_OPEN then close the circuit and clear all
counters.  (The code does not limit HALF_OPEN to a single probe: see the
counterexample.) -/
theorem C3_half_open_probe_and_close (successThreshold : Nat) (site : String)
    (st : CircuitStore) (now lf : Nat)
    (h1 : get_state st = .opened) (h2 : st.lastFailure = some lf)
    (h3 : lf + siteRecoveryTimeout site ≤ now) (h4 : 1 ≤ successThreshold) :
    is_available site now st = (true, { st with state := some .halfOpen, successes := 0 }) ∧
    recordSuccesses successThreshold site successThreshold
        { st with state := some .halfOpen, successes := 0 }
      = ⟨some .closed, 0, 0, none⟩ := by
  constructor
  · simp only [is_available, h1, h2]
    rw [if_pos (by omega)]
  · exact recordSuccesses_closes successThreshold site successThreshold _ rfl (by simp) h4

/-- Witness for C3: site `"default"` (recovery timeout 60), OPEN with last
failure at time 0, probed at time 60, default `success_threshold` 2. -/
theorem C3_half_open_probe_and_close_witness :
    get_state ⟨some .opened, 5, 0, some 0⟩ = .opened ∧
    is_available "default" 60 ⟨some .opened, 5, 0, some 0⟩ =
      (true, ⟨some .halfOpen, 5, 0, some 0⟩) ∧
    recordSuccesses 2 "default" 2 ⟨some .halfOpen, 5, 0, some 0⟩
      = ⟨some .closed, 0, 0, none⟩ := by
  refine ⟨by decide, ?_⟩
  exact C3_half_open_probe_and_close 2 "default" ⟨some .opened, 5, 0, some 0⟩ 60 0
    (by decide) (by decide) (by decide) (by decide)

/-- Counterexample to C3 as stated: after the recovery timeout has elapsed,
the breaker moves to HALF_OPEN, but more than one call is then allowed
through before any success or failure is recorded — a second `is_available`
call on the updated store also returns `true`. -/
theorem C3_single_probe_counterexample :
    (is_available "default" 60 ⟨some .opened, 5, 0, some 0⟩).1 = true ∧
    get_state (is_available "default" 60 ⟨some .opened, 5, 0, some 0⟩).2 = .halfOpen ∧
    (is_available "default" 60
        (is_available "default" 60 ⟨some .opened, 5, 0, some 0⟩).2).1 = true := by
  decide

/-! ## Cache -/

/-- Claim C4: `cache.set(url, data)` followed immediately by
`cache.get(url)` (same clock instant) returns exactly the payload that was
stored — the data stamped with its write time — and once the TTL has
expired, `cache.get(url)` returns nothing. -/
theorem C4_cache_roundtrip_and_expiry (store : RedisKV) (url : String)
    (data : List (String × String)) (ttl : Option Nat) (defaultTtl now now2 : Nat)
    (h1 : 0 < effectiveTtl ttl defaultTtl)
    (h2 : now + effectiveTtl ttl defaultTtl ≤ now2) :
    cacheGet (cacheSet store url data ttl defaultTtl now) url now
      = some (stampCachedAt data (toString now)) ∧
    cacheGet (cacheSet store url data ttl defaultTtl now) url now2 = none := by
  constructor
  · simp only [cacheGet, cacheSet, redisSetex, redisGet, List.find?_cons, decide_True]
    rw [if_pos (by omega)]
  · simp only [cacheGet, cacheSet, redisSetex, redisGet, List.find?_cons, decide_True]
    rw [if_neg (by omega)]

/-- Witness for C4: an empty store, a one-field payload, the default TTL of
3600 seconds, written at time 0, read back at times 0 and 3600. -/
theorem C4_cache_roundtrip_and_expiry_witness :
    0 < effectiveTtl none 3600 ∧
    cacheGet (cacheSet [] "https://www.amazon.fr/dp/x" [("price", "10")] none 3600 0)
        "https://www.amazon.fr/dp/x" 0
      = some [("price", "10"), ("cached_at", "0")] ∧
    cacheGet (cacheSet [] "https://www.amazon.fr/dp/x" [("price", "10")] none 3600 0)
        "https://www.amazon.fr/dp/x" 3600 = none := by
  refine ⟨by decide, ?_, ?_⟩
  · have h := (C4_cache_roundtrip_and_expiry [] "https://www.amazon.fr/dp/x"
      [("price", "10")] none 3600 0 3600 (by decide) (by decide)).1
    simpa [stampCachedAt] using h
  · exact (C4_cache_roundtrip_and_expiry [] "https://www.amazon.fr/dp/x"
      [("price", "10")] none 3600 0 3600 (by decide) (by decide)).2

/-! ## Scheduler result processing -/

/-- Counterexample to C1 as stated: the end-to-end scenario with
`currentPrice = 100, targetPrice = 100` scraped to `95` produces the one new
history entry, but zero notification calls — not the claimed one call with
`(newPrice = 95, oldPrice = 100)` — because the notification condition
requires the old price to be strictly above the target
(`old_price > product.target_price`) and `100 > 100` fails. -/
theorem C1_price_cross_counterexample :
    (processResult ⟨100, 100, true, none, 0⟩ [] (.price 95) 5).2.1 = [95] ∧
    (processResult ⟨100, 100, true, none, 0⟩ [] (.price 95) 5).2.2.1 = [] ∧
    (processResult ⟨100, 100, true, none, 0⟩ [] (.price 95) 5).2.2.1 ≠ [(95, 100)] := by
  decide

/-- Claim C1 (amended): for every product whose scrape succeeds with a new
price, if the price crosses the target — the old price strictly above it,
the new price at or below it — the pipeline forwards exactly one
notification call carrying `(newPrice, oldPrice)`.  The spec's
`currentPrice = 100, targetPrice = 100 → 95` scenario produces one new
history entry `95` but no notification, since the old price must be strictly
above the target. -/
theorem C1_price_cross_notification (p : Product) (history : List ℚ)
    (newPrice : ℚ) (now : Nat)
    (h1 : p.targetPrice < p.currentPrice) (h2 : newPrice ≤ p.targetPrice) :
    (processResult p history (.price newPrice) now).2.2.1 = [(newPrice, p.currentPrice)] ∧
    (processResult ⟨100, 100, true, none, 0⟩ [] (.price 95) 5).2.1 = [95] ∧
    (processResult ⟨100, 100, true, none, 0⟩ [] (.price 95) 5).2.2.1 = [] := by
  refine ⟨?_, by decide, by decide⟩
  simp only [processResult]
  rw [if_pos ⟨h2, h1⟩]

/-- Witness for C1: a product at 110 with target 100 scraped to 95 forwards
the single alert `(95, 110)`. -/
theorem C1_price_cross_notification_witness :
    (100 : ℚ) < 110 ∧
    (processResult ⟨110, 100, true, none, 0⟩ [] (.price 95) 5).2.2.1 = [(95, 110)] := by
  refine ⟨by decide, ?_⟩
  exact (C1_price_cross_notification ⟨110, 100, true, none, 0⟩ [] 95 5
    (by decide) (by decide)).1

/-- Claim C5: an HTTP 404 (or 410) response makes scrape_product raise
`ProductUnavailableError` after exactly one fetch attempt and zero retries
(no fallback), and the pipeline then marks an available product unavailable,
with `unavailable_since` set to the check time and `last_checked` updated. -/
theorem C5_http404_no_retry (maxRetries : Nat) (rest : List AttemptOutcome)
    (fb : Option ScrapedData) (p : Product) (history : List ℚ) (now : Nat)
    (h1 : 1 ≤ maxRetries) (h2 : p.isAvailable = true) :
    scrape_product maxRetries (.httpError 404 :: rest) fb = ⟨.unavailable, 1, false⟩ ∧
    scrape_product maxRetries (.httpError 410 :: rest) fb = ⟨.unavailable, 1, false⟩ ∧
    processResult p history (scrape_single_product_safe
        (scrape_product maxRetries (.httpError 404 :: rest) fb).result) now
      = ({ p with isAvailable := false, unavailableSince := some now, lastChecked := now },
          history, [], []) := by
  obtain ⟨k, rfl⟩ : ∃ k, maxRetries = k + 1 := ⟨maxRetries - 1, by omega⟩
  have h404 : scrape_product (k + 1) (.httpError 404 :: rest) fb = ⟨.unavailable, 1, false⟩ := by
    simp [scrape_product, scrapeLoop, List.take_succ_cons]
  have h410 : scrape_product (k + 1) (.httpError 410 :: rest) fb = ⟨.unavailable, 1, false⟩ := by
    simp [scrape_product, scrapeLoop, List.take_succ_cons]
  refine ⟨h404, h410, ?_⟩
  rw [h404]
  simp only [scrape_single_product_safe, processResult, h2, if_pos]

/-- Witness for C5: three configured retries (the default), an environment
answering 404, an available product. -/
theorem C5_http404_no_retry_witness :
    (⟨100, 90, true, none, 0⟩ : Product).isAvailable = true ∧
    scrape_product 3 [.httpError 404] none = ⟨.unavailable, 1, false⟩ ∧
    processResult ⟨100, 90, true, none, 0⟩ [] (scrape_single_product_safe
        (scrape_product 3 [.httpError 404] none).result) 7
      = (⟨100, 90, false, some 7, 7⟩, [], [], []) := by
  refine ⟨by decide, ?_, ?_⟩
  · exact (C5_http404_no_retry 3 [] none ⟨100, 90, true, none, 0⟩ [] 7
      (by decide) (by decide)).1
  · exact (C5_http404_no_retry 3 [] none ⟨100, 90, true, none, 0⟩ [] 7
      (by decide) (by decide)).2.2

/-- Claim C7: a new history entry is created if and only if the product has
no prior history or the observed price differs from the most recently
recorded one; scraping the same price twice in a row through the pipeline
records at most one entry — the second pass leaves the history unchanged. -/
theorem C7_history_dedup (p : Product) (history : List ℚ) (price : ℚ) (t1 t2 : Nat) :
    (should_record_price history price = true ↔
      history = [] ∨ history.head? ≠ some price) ∧
    (processResult (processResult p history (.price price) t1).1
        (processResult p history (.price price) t1).2.1 (.price price) t2).2.1
      = (processResult p history (.price price) t1).2.1 ∧
    (history = [] → (processResult p history (.price price) t1).2.1 = [price]) := by
  refine ⟨?_, ?_, ?_⟩
  · cases history with
    | nil => simp [should_record_price]
    | cons last rest => simp [should_record_price]
  · by_cases hrec : should_record_price history price = true
    · have h1 : (processResult p history (.price price) t1).2.1 = price :: history := by
        simp only [processResult]
        rw [if_pos hrec]
      rw [h1]
      simp only [processResult]
      rw [if_neg (by simp [should_record_price])]
    · have hhead : ∃ rest, history = price :: rest := by
        cases history with
        | nil => simp [should_record_price] at hrec
        | cons last rest =>
          simp only [should_record_price] at hrec
          exact ⟨rest, by simpa using hrec⟩
      obtain ⟨rest, rfl⟩ := hhead
      have h1 : (processResult p (price :: rest) (.price price) t1).2.1 = price :: rest := by
        simp only [processResult]
        rw [if_neg hrec]
      rw [h1]
      simp only [processResult]
      rw [if_neg (by simp [should_record_price])]
  · intro h
    subst h
    simp [processResult, should_record_price]

/-- Witness for C7: a fresh product scraped twice to the same price records
exactly one entry. -/
theorem C7_history_dedup_witness :
    should_record_price [] 50 = true ∧
    (processResult ⟨60, 40, true, none, 0⟩ [] (.price 50) 1).2.1 = [50] ∧
    (processResult (processResult ⟨60, 40, true, none, 0⟩ [] (.price 50) 1).1
        (processResult ⟨60, 40, true, none, 0⟩ [] (.price 50) 1).2.1 (.price 50) 2).2.1
      = (processResult ⟨60, 40, true, none, 0⟩ [] (.price 50) 1).2.1 := by
  have h := C7_history_dedup ⟨60, 40, true, none, 0⟩ [] 50 1 2
  exact ⟨by decide, h.2.2 rfl, h.2.1⟩

/-- Counterexample to C8 as stated: a scraping attempt reaching a terminal
outcome (here: product unavailable) writes zero ScrapingStat rows in the
pipeline, not exactly one. -/
theorem C8_stat_rows_counterexample :
    (processResult ⟨100, 90, true, none, 0⟩ [] .unavailable 7).2.2.2.length = 0 ∧
    (processResult ⟨100, 90, true, none, 0⟩ [] .unavailable 7).2.2.2.length ≠ 1 := by
  decide

/-- Claim C8 (amended): `AdminService.log_scraping_stat` appends exactly one
ScrapingStat row per call, but the price-checking pipeline never invokes it:
processing any scraping outcome writes zero ScrapingStat rows. -/
theorem C8_stat_rows (db : List ScrapingStat) (siteName status : String)
    (productId : Option Nat) (responseTime : Option ℚ) (errorMessage : Option String)
    (p : Product) (history : List ℚ) (r : TaskResult) (now : Nat) :
    log_scraping_stat db siteName status productId responseTime errorMessage
      = db ++ [⟨siteName, productId, status, responseTime, errorMessage⟩] ∧
    (log_scraping_stat db siteName status productId responseTime errorMessage).length
      = db.length + 1 ∧
    (processResult p history r now).2.2.2 = [] := by
  refine ⟨rfl, by simp [log_scraping_stat], ?_⟩
  cases r with
  | unavailable =>
    simp only [processResult]
    split <;> rfl
  | error => rfl
  | price newPrice =>
    simp only [processResult]

/-! ## Priority scheduling -/

theorem priorityLe_trans (a b c : Product) :
    decide (calculate_priority a ≤ calculate_priority b) = true →
    decide (calculate_priority b ≤ calculate_priority c) = true →
    decide (calculate_priority a ≤ calculate_priority c) = true := by
  simp only [decide_eq_true_eq]
  exact le_trans

theorem priorityLe_total (a b : Product) :
    (decide (calculate_priority a ≤ calculate_priority b)
      || decide (calculate_priority b ≤ calculate_priority a)) = true := by
  simp only [Bool.or_eq_true, decide_eq_true_eq]
  exact le_total _ _

/-- Claim C6: the priority score is `0` for a product at or below its target
and `(currentPrice - targetPrice) / targetPrice` otherwise — strictly
increasing with the distance above the target — and the scheduler's sort is
a permutation of the selection, non-decreasing in the score, with ties kept
in the original selection order (stability). -/
theorem C6_priority_and_stable_sort :
    (∀ p : Product, p.currentPrice ≤ p.targetPrice → calculate_priority p = 0) ∧
    (∀ p : Product, p.targetPrice < p.currentPrice →
      calculate_priority p = (p.currentPrice - p.targetPrice) / p.targetPrice) ∧
    (∀ p q : Product, 0 < p.targetPrice → p.targetPrice = q.targetPrice →
      p.targetPrice < p.currentPrice → p.currentPrice < q.currentPrice →
      calculate_priority p < calculate_priority q) ∧
    (∀ l : List Product, (sortByPriority l).Perm l ∧
      List.Pairwise (fun a b => calculate_priority a ≤ calculate_priority b)
        (sortByPriority l)) ∧
    (∀ (a b : Product) (l : List Product),
      calculate_priority a = calculate_priority b →
      [a, b].Sublist l → [a, b].Sublist (sortByPriority l)) := by
  refine ⟨?_, ?_, ?_, ?_, ?_⟩
  · intro p h
    simp [calculate_priority, h]
  · intro p h
    simp [calculate_priority, not_le.mpr h]
  · intro p q ht heq h1 h2
    have hq : q.targetPrice < q.currentPrice := heq ▸ lt_trans h1 h2
    rw [calculate_priority, calculate_priority, if_neg (not_le.mpr h1),
      if_neg (not_le.mpr hq), ← heq]
    have hsub : p.currentPrice - p.targetPrice < q.currentPrice - p.targetPrice :=
      sub_lt_sub_right h2 _
    gcongr
  · intro l
    refine ⟨List.mergeSort_perm l _, ?_⟩
    have h := @List.sorted_mergeSort Product
      (fun a b : Product => decide (calculate_priority a ≤ calculate_priority b))
      priorityLe_trans priorityLe_total l
    simpa [sortByPriority] using h
  · intro a b l heq hsub
    exact List.pair_sublist_mergeSort priorityLe_trans priorityLe_total
      (by simp [heq]) hsub

/-- Witness for C6: a product at or below target scores 0; 110 vs 120
against target 100 order strictly; two tied products keep their original
order through the sort. -/
theorem C6_priority_and_stable_sort_witness :
    calculate_priority ⟨90, 100, true, none, 0⟩ = 0 ∧
    calculate_priority ⟨110, 100, true, none, 0⟩
      < calculate_priority ⟨120, 100, true, none, 0⟩ ∧
    ([⟨95, 100, true, none, 0⟩, ⟨90, 100, true, none, 1⟩] : List Product).Sublist
      (sortByPriority [⟨95, 100, true, none, 0⟩, ⟨90, 100, true, none, 1⟩]) := by
  refine ⟨?_, ?_, ?_⟩
  · exact C6_priority_and_stable_sort.1 ⟨90, 100, true, none, 0⟩ (by decide)
  · exact C6_priority_and_stable_sort.2.2.1 ⟨110, 100, true, none, 0⟩
      ⟨120, 100, true, none, 0⟩ (by decide) (by decide) (by decide) (by decide)
  · exact C6_priority_and_stable_sort.2.2.2.2 ⟨95, 100, true, none, 0⟩
      ⟨90, 100, true, none, 1⟩ _ (by decide) (List.Sublist.refl _)

/-! ## Retry-loop exception propagation -/

theorem scrapeLoop_raise_mem :
    ∀ (l : List AttemptOutcome) (last : Option LastExc),
      (scrapeLoop l last).1 = .raisedUnavailable →
      ∃ o ∈ l, raisesUnavailable o = true
  | [], _, h => by simp [scrapeLoop] at h
  | o :: rest, last, h => by
    cases o with
    | success d => simp [scrapeLoop] at h
    | unavailablePage => exact ⟨.unavailablePage, by simp, rfl⟩
    | timeout =>
      obtain ⟨o', ho', hr⟩ := scrapeLoop_raise_mem rest (some .timeout) (by
        simpa [scrapeLoop] using h)
      exact ⟨o', by simp [ho'], hr⟩
    | httpError s =>
      by_cases hs : s = 404 ∨ s = 410
      · exact ⟨.httpError s, by simp, by simp [raisesUnavailable, hs]⟩
      · obtain ⟨o', ho', hr⟩ := scrapeLoop_raise_mem rest (some (.httpError s)) (by
          simpa [scrapeLoop, hs] using h)
        exact ⟨o', by simp [ho'], hr⟩
    | extractionFailed =>
      obtain ⟨o', ho', hr⟩ := scrapeLoop_raise_mem rest (some .extractionFailed) (by
        simpa [scrapeLoop] using h)
      exact ⟨o', by simp [ho'], hr⟩
    | otherError =>
      obtain ⟨o', ho', hr⟩ := scrapeLoop_raise_mem rest (some .otherError) (by
        simpa [scrapeLoop] using h)
      exact ⟨o', by simp [ho'], hr⟩

theorem scrapeLoop_all_failures_exhausted :
    ∀ (l : List AttemptOutcome) (last : Option LastExc),
      (∀ o ∈ l, isRetriedFailure o = true) →
      ∃ e, (scrapeLoop l last).1 = .exhausted e
  | [], last, _ => ⟨last, rfl⟩
  | o :: rest, last, h => by
    have ho := h o (by simp)
    have hrest : ∀ o' ∈ rest, isRetriedFailure o' = true := fun o' ho' => h o' (by simp [ho'])
    cases o with
    | success d => simp [isRetriedFailure] at ho
    | unavailablePage => simp [isRetriedFailure] at ho
    | timeout =>
      obtain ⟨e, he⟩ := scrapeLoop_all_failures_exhausted rest (some .timeout) hrest
      exact ⟨e, by simpa [scrapeLoop] using he⟩
    | httpError s =>
      have hs : ¬(s = 404 ∨ s = 410) := by
        simpa [isRetriedFailure, decide_eq_true_eq] using ho
      obtain ⟨e, he⟩ := scrapeLoop_all_failures_exhausted rest (some (.httpError s)) hrest
      exact ⟨e, by simpa [scrapeLoop, hs] using he⟩
    | extractionFailed =>
      obtain ⟨e, he⟩ := scrapeLoop_all_failures_exhausted rest (some .extractionFailed) hrest
      exact ⟨e, by simpa [scrapeLoop] using he⟩
    | otherError =>
      obtain ⟨e, he⟩ := scrapeLoop_all_failures_exhausted rest (some .otherError) hrest
      exact ⟨e, by simpa [scrapeLoop] using he⟩

/-- Claim C10: scrape_product can surface only the product-unavailable
error: if no attempt within the retry budget hits an unavailability match or
an HTTP 404/410, it never raises, and if moreover every attempt is an
absorbed failure (timeout, other HTTP error, extraction failure, other
error) and the Playwright fallback yields nothing, it returns `None`. -/
theorem C10_only_unavailable_propagates (maxRetries : Nat)
    (env : List AttemptOutcome) (fb : Option ScrapedData)
    (h1 : ∀ o ∈ env.take maxRetries, raisesUnavailable o = false) :
    (scrape_product maxRetries env fb).result ≠ .unavailable ∧
    ((∀ o ∈ env.take maxRetries, isRetriedFailure o = true) → fb = none →
      (scrape_product maxRetries env fb).result = .failed) := by
  constructor
  · intro hcon
    have hraise : (scrapeLoop (env.take maxRetries) none).1 = .raisedUnavailable := by
      rcases hexit : (scrapeLoop (env.take maxRetries) none).1 with _ | d | last
      · rfl
      · simp [scrape_product, hexit] at hcon
      · cases last with
        | none => simp [scrape_product, hexit] at hcon
        | some e =>
          cases hp : shouldTryPlaywright e with
          | true =>
            cases fb with
            | none => simp [scrape_product, hexit, hp] at hcon
            | some d => simp [scrape_product, hexit, hp] at hcon
          | false => simp [scrape_product, hexit, hp] at hcon
    obtain ⟨o, ho, hr⟩ := scrapeLoop_raise_mem (env.take maxRetries) none hraise
    rw [h1 o ho] at hr
    exact Bool.false_ne_true hr
  · intro hall hfb
    subst hfb
    obtain ⟨e, he⟩ := scrapeLoop_all_failures_exhausted (env.take maxRetries) none hall
    cases e with
    | none => simp [scrape_product, he]
    | some e2 =>
      cases hp : shouldTryPlaywright e2 with
      | true => simp [scrape_product, he, hp]
      | false => simp [scrape_product, he, hp]

/-- Witness for C10: three consecutive timeouts under the default 3-retry
budget, no fallback data, result in a `None` return and no raise. -/
theorem C10_only_unavailable_propagates_witness :
    (scrape_product 3 [.timeout, .timeout, .timeout] none).result ≠ .unavailable ∧
    (scrape_product 3 [.timeout, .timeout, .timeout] none).result = .failed := by
  have h := C10_only_unavailable_propagates 3 [.timeout, .timeout, .timeout] none (by decide)
  exact ⟨h.1, h.2 (by decide) rfl⟩

/-! ## Decimal price parsing -/

theorem dropWhile_map_comm (f : Char → Char) (p : Char → Bool)
    (h : ∀ c, p (f c) = p c) :
    ∀ s : List Char, (s.map f).dropWhile p = (s.dropWhile p).map f
  | [] => rfl
  | c :: s => by
    simp only [List.map_cons, List.dropWhile_cons, h c]
    by_cases hc : p c = true
    · simp only [hc, if_true]
      exact dropWhile_map_comm f p h s
    · simp only [Bool.not_eq_true] at hc
      simp [hc]

theorem pyStrip_map_comm (f : Char → Char)
    (h : ∀ c, (f c).isWhitespace = c.isWhitespace) (s : List Char) :
    pyStrip (s.map f) = (pyStrip s).map f := by
  simp only [pyStrip, dropWhile_map_comm f Char.isWhitespace h s, ← List.map_reverse,
    dropWhile_map_comm f Char.isWhitespace h]

theorem filter_map_comm (f : Char → Char) (p : Char → Bool)
    (h : ∀ c, p (f c) = p c) :
    ∀ s : List Char, (s.map f).filter p = (s.filter p).map f
  | [] => rfl
  | c :: s => by
    simp only [List.map_cons, List.filter_cons, h c]
    by_cases hc : p c = true
    · simp only [hc, if_true, List.map_cons]
      rw [filter_map_comm f p h s]
    · simp only [Bool.not_eq_true] at hc
      simp only [hc, Bool.false_eq_true, if_false]
      exact filter_map_comm f p h s

theorem commaToDot_idem (s : List Char) :
    pyReplaceChar ',' '.' (pyReplaceChar ',' '.' s) = pyReplaceChar ',' '.' s := by
  simp only [pyReplaceChar, List.map_map]
  apply List.map_congr_left
  intro c _
  by_cases hc : c = ','
  · subst hc; rfl
  · simp [Function.comp, hc]

theorem commaToDot_whitespace (c : Char) :
    (if c = ',' then '.' else c).isWhitespace = c.isWhitespace := by
  by_cases hc : c = ','
  · subst hc; rfl
  · rw [if_neg hc]

theorem commaToDot_ne_euro (c : Char) :
    (decide ((if c = ',' then '.' else c) ≠ '€')) = decide (c ≠ '€') := by
  by_cases hc : c = ','
  · subst hc; rfl
  · rw [if_neg hc]

/-- Claim C9: the extractors' price parsing is insensitive to the decimal
separator — replacing every comma by a dot in the raw price text never
changes the parse (for the Fnac-style single-string prices and for the
Amazon whole-part format alike) — and on the spec's examples `"14,34"`,
`"14.34"` (also as Amazon whole/fraction pairs) both parse to `14.34`, and
`"1 234,56"` (space thousands separator, comma decimal) parses to
`1234.56`. -/
theorem C9_comma_dot_price_parsing :
    (∀ s : List Char,
      fnacParsePrice (pyReplaceChar ',' '.' s) = fnacParsePrice s) ∧
    (∀ whole frac : List Char,
      amazonParsePrice (pyReplaceChar ',' '.' whole) frac = amazonParsePrice whole frac) ∧
    fnacParsePrice "14,34".toList = some (1434 / 100) ∧
    fnacParsePrice "14.34".toList = some (1434 / 100) ∧
    amazonParsePrice "14,".toList "34".toList = some (1434 / 100) ∧
    amazonParsePrice "14.".toList "34".toList = some (1434 / 100) ∧
    fnacParsePrice "1 234,56".toList = some (123456 / 100) := by
  have hmain : ∀ s : List Char,
      pyReplaceChar ',' '.' (pyRemoveChar '€' (pyStrip (pyReplaceChar ',' '.' s)))
        = pyReplaceChar ',' '.' (pyRemoveChar '€' (pyStrip s)) := by
    intro s
    rw [show pyStrip (pyReplaceChar ',' '.' s) = pyReplaceChar ',' '.' (pyStrip s) from
      pyStrip_map_comm _ commaToDot_whitespace s]
    rw [show pyRemoveChar '€' (pyReplaceChar ',' '.' (pyStrip s))
        = pyReplaceChar ',' '.' (pyRemoveChar '€' (pyStrip s)) from
      filter_map_comm _ _ commaToDot_ne_euro (pyStrip s)]
    rw [commaToDot_idem]
  have hamazon : ∀ s : List Char,
      pyReplaceChar ',' '.' (pyStrip (pyReplaceChar ',' '.' s))
        = pyReplaceChar ',' '.' (pyStrip s) := by
    intro s
    rw [show pyStrip (pyReplaceChar ',' '.' s) = pyReplaceChar ',' '.' (pyStrip s) from
      pyStrip_map_comm _ commaToDot_whitespace s]
    rw [commaToDot_idem]
  refine ⟨?_, ?_, ?_, ?_, ?_, ?_, ?_⟩
  · intro s
    simp only [fnacParsePrice]
    rw [hmain s]
  · intro whole frac
    simp only [amazonParsePrice]
    rw [hamazon whole]
  · rw [show fnacParsePrice "14,34".toList
        = some (((14 : Nat) : ℚ) + ((34 : Nat) : ℚ) / (10 : ℚ) ^ (2 : Nat)) from rfl]
    norm_num
  · rw [show fnacParsePrice "14.34".toList
        = some (((14 : Nat) : ℚ) + ((34 : Nat) : ℚ) / (10 : ℚ) ^ (2 : Nat)) from rfl]
    norm_num
  · rw [show amazonParsePrice "14,".toList "34".toList
        = some (((14 : Nat) : ℚ) + ((34 : Nat) : ℚ) / (10 : ℚ) ^ (2 : Nat)) from rfl]
    norm_num
  · rw [show amazonParsePrice "14.".toList "34".toList
        = some (((14 : Nat) : ℚ) + ((34 : Nat) : ℚ) / (10 : ℚ) ^ (2 : Nat)) from rfl]
    norm_num
  · rw [show fnacParsePrice "1 234,56".toList
        = some (((1234 : Nat) : ℚ) + ((56 : Nat) : ℚ) / (10 : ℚ) ^ (2 : Nat)) from rfl]
    norm_num

end PriceWatch

